import Mathlib

/-!
Verification development for the bugwarrior service connectors
(Gerrit, Phabricator, Redmine).  Each connector's record-mapping and
filtering logic is embedded shallowly: Python dictionaries become
structures with `Option` fields for optional keys, Python string
operations are modelled character-exactly, and remote calls become
explicit parameters (the raw results a call would return, or an
`Except` value when the call can fail).
-/

namespace Bugwarrior

/-! ## Python string primitives

Models of the exact Python `str` methods used by the connectors.
`str.lstrip(chars)` removes the longest leading run of characters that
belong to the character SET of `chars` (it does not remove a literal
word).  `str.strip()` with no argument trims ASCII whitespace
(` \t\n\r\x0b\x0c`) from both ends. -/

def pyIsSpace (c : Char) : Bool :=
  c = ' ' || c = '\t' || c = '\n' || c = '\x0d' || c = '\x0b' || c = '\x0c'

def pyLstrip (chars : String) (s : String) : String :=
  ⟨s.data.dropWhile (fun c => chars.data.contains c)⟩

def pyStripWs (s : String) : String :=
  ⟨((s.data.dropWhile pyIsSpace).reverse.dropWhile pyIsSpace).reverse⟩

def pyReplaceNewlines (s : String) : String :=
  ⟨s.data.map (fun c => if c = '\n' then ' ' else c)⟩

/-- Python `a or b` for a string-or-None left operand (`None` and the
empty string are falsy). -/
def pyOrStr (a : Option String) (b : String) : String :=
  match a with
  | some v => if v = "" then b else v
  | none => b

/-! ## Gerrit connector (`bugwarrior/services/gerrit.py`) -/

/-- The `author` object of a Gerrit change message: `name`, `username`
and `email` keys may be absent, `_account_id` is always present. -/
structure GerritAccount where
  name : Option String
  username : Option String
  email : Option String
  account_id : Int
deriving DecidableEq

/-- A Python value that is either a string or an integer (the resolved
author is a string field when one exists, otherwise the numeric id). -/
inductive PyVal where
  | str : String → PyVal
  | int : Int → PyVal
deriving DecidableEq

/-- `GerritService.annotations`, author resolution: iterate over the
keys `name`, `username`, `email` and take the first present one,
falling back to `_account_id` (the `for`/`else` loop). -/
def resolveAuthorName (a : GerritAccount) : PyVal :=
  match a.name with
  | some v => .str v
  | none =>
    match a.username with
    | some v => .str v
    | none =>
      match a.email with
      | some v => .str v
      | none => .int a.account_id

/-- `GerritService.annotations`, message text:
`item['message'].lstrip('Patch Set ').lstrip("%s:" % item['_revision_number']).strip().replace('\n', ' ')`. -/
def messageText (rev : Int) (msg : String) : String :=
  pyReplaceNewlines (pyStripWs
    (pyLstrip (toString rev ++ ":") (pyLstrip "Patch Set " msg)))

/-- One element of `change['messages']`. -/
structure GerritMessage where
  author : GerritAccount
  revision_number : Int
  message : String
deriving DecidableEq

/-- The author/text pairs appended to `entries` by
`GerritService.annotations` (before the generic formatting done by the
base class). -/
def annotationEntries (messages : List GerritMessage) : List (PyVal × String) :=
  messages.map (fun m => (resolveAuthorName m.author, messageText m.revision_number m.message))

/-- A Gerrit change record, with the keys read by the connector.
`topic`, `status` and `work_in_progress` are optional. -/
structure GerritChange where
  project : String
  number : Int
  subject : String
  branch : String
  topic : Option String
  status : Option String
  work_in_progress : Option Bool
  messages : List GerritMessage
deriving DecidableEq

/-- The normalized record produced by `GerritIssue.to_taskwarrior`. -/
structure GerritTW where
  project : String
  annotations : List String
  gerriturl : String
  priority : String
  tags : List String
  gerritid : Int
  gerritsummary : String
  gerritbranch : String
  gerrittopic : String
  gerritstatus : String
  gerritwip : Int
deriving DecidableEq

namespace GerritIssue

/-- `GerritIssue.to_taskwarrior`.  `default_priority` is
`self.config.default_priority`; `url` and `ann` are
`self.extra['url']` and `self.extra['annotations']`. -/
def to_taskwarrior (default_priority : String) (url : String)
    (ann : List String) (r : GerritChange) : GerritTW :=
  { project := r.project
    annotations := ann
    gerriturl := url
    priority := default_priority
    tags := []
    gerritid := r.number
    gerritsummary := r.subject
    gerritbranch := r.branch
    gerrittopic := r.topic.getD "notopic"
    gerritstatus := r.status.getD ""
    gerritwip := match r.work_in_progress with
      | some b => if b then 1 else 0
      | none => 0 }

end GerritIssue

/-- An HTTP response as seen by `GerritService.issues`. -/
structure HttpResponse where
  status_code : Nat
  text : String
deriving DecidableEq

/-- `requests.Response.raise_for_status`: raises `HTTPError` exactly
for 4xx client errors and 5xx server errors. -/
def raise_for_status (r : HttpResponse) : Except String Unit :=
  if (400 ≤ r.status_code ∧ r.status_code < 500) ∨
     (500 ≤ r.status_code ∧ r.status_code < 600) then
    .error "HTTPError"
  else
    .ok ()

namespace GerritService

/-- `GerritService.issues`, up to the list of parsed changes: perform
the GET (its response is the parameter `resp`), call
`raise_for_status`, drop the 4-character anti-hijacking garbage, and
JSON-decode (`parse` models `json.loads`, which raises on malformed
input).  Any raised error propagates to the caller before any record
is produced. -/
def issues (parse : String → Except String (List GerritChange))
    (resp : HttpResponse) : Except String (List GerritChange) := do
  _ ← raise_for_status resp
  parse (⟨resp.text.data.drop 4⟩)

end GerritService

/-! ## Phabricator connector (`bugwarrior/services/phab.py`) -/

/-- A Maniphest task record, with the keys read by the connector. -/
structure PhabTask where
  uri : String
  title : String
  priority : Option String
  ccPHIDs : List String
  ownerPHID : String
  authorPHID : String
  projectPHIDs : List String
deriving DecidableEq

/-- A Differential revision record, with the keys read by the
connector.  `phabricator:projects` can be absent (the code catches
`KeyError`). -/
structure PhabDiff where
  uri : String
  title : String
  reviewers : List String
  ccs : List String
  authorPHID : String
  repositoryPHID : String
  phabricatorProjects : Option (List String)
deriving DecidableEq

/-- The configuration fields consulted by the Phabricator filtering
logic.  `ignore_cc` and `ignore_author` here are the values resolved
in `PhabricatorService.__init__` (explicit config value, defaulting to
`only_if_assigned`). -/
structure PhabFilterConfig where
  user_phids : List String
  project_phids : List String
  ignore_cc : Bool
  ignore_owner : Bool
  ignore_author : Bool
  ignore_reviewers : Bool
deriving DecidableEq

/-- `PhabricatorService.__init__`: `self.ignore_cc = config.ignore_cc
if config.ignore_cc is not None else config.only_if_assigned` (and the
same for `ignore_author`). -/
def resolveIgnore (explicit : Option Bool) (only_if_assigned : Bool) : Bool :=
  explicit.getD only_if_assigned

/-- `len(set(a).intersection(b)) > 0`. -/
def hasCommon (a b : List String) : Bool :=
  a.any (fun x => b.contains x)

/-- The `task_relevant_to` set built in `PhabricatorService.tasks`:
cc list unless `ignore_cc`, owner unless `ignore_owner`, author unless
`ignore_author` (as a list; only membership matters). -/
def task_relevant_to (cfg : PhabFilterConfig) (t : PhabTask) : List String :=
  (if cfg.ignore_cc then [] else t.ccPHIDs) ++
  (if cfg.ignore_owner then [] else [t.ownerPHID]) ++
  (if cfg.ignore_author then [] else [t.authorPHID])

/-- The per-task match flag computed in `PhabricatorService.tasks`
(lines 149-177): starts false, set if neither filter list is
configured, set if the relevance set intersects `user_phids`, set if
`projectPHIDs` intersects `project_phids`. -/
def this_task_matches (cfg : PhabFilterConfig) (t : PhabTask) : Bool :=
  (cfg.user_phids.isEmpty && cfg.project_phids.isEmpty) ||
  (!cfg.user_phids.isEmpty && hasCommon (task_relevant_to cfg t) cfg.user_phids) ||
  (!cfg.project_phids.isEmpty && hasCommon t.projectPHIDs cfg.project_phids)

/-- The `diff_relevant_to` set built in `PhabricatorService.revisions`:
reviewers unless `ignore_reviewers`, cc list unless `ignore_cc`,
author unless `ignore_author`. -/
def diff_relevant_to (cfg : PhabFilterConfig) (d : PhabDiff) : List String :=
  (if cfg.ignore_reviewers then [] else d.reviewers) ++
  (if cfg.ignore_cc then [] else d.ccs) ++
  (if cfg.ignore_author then [] else [d.authorPHID])

/-- The project match set of a revision:
`set(phabricator_projects + [diff['repositoryPHID']])` where the
project tag list defaults to `[]` when the key is absent. -/
def diff_project_set (d : PhabDiff) : List String :=
  d.phabricatorProjects.getD [] ++ [d.repositoryPHID]

/-- The per-revision match flag computed in
`PhabricatorService.revisions` (lines 202-236). -/
def this_diff_matches (cfg : PhabFilterConfig) (d : PhabDiff) : Bool :=
  (cfg.user_phids.isEmpty && cfg.project_phids.isEmpty) ||
  (!cfg.user_phids.isEmpty && hasCommon (diff_relevant_to cfg d) cfg.user_phids) ||
  (!cfg.project_phids.isEmpty && hasCommon (diff_project_set d) cfg.project_phids)

/-- The results each `maniphest.query` server call would return, as
`(phid, task)` item lists: one field per distinct query the code can
issue. -/
structure ManiphestAPI where
  byOwner : List (String × PhabTask)
  byCc : List (String × PhabTask)
  byAuthor : List (String × PhabTask)
  byProject : List (String × PhabTask)
  all : List (String × PhabTask)

/-- One server-side Maniphest query (all are `status='status-open'`). -/
inductive ManiphestQuery where
  | owner (phids : List String)
  | cc (phids : List String)
  | author (phids : List String)
  | project (phids : List String)
  | all
deriving DecidableEq

/-- The sequence of server-side queries `PhabricatorService.tasks`
issues for a given configuration (lines 114-138). -/
def issuedQueries (cfg : PhabFilterConfig) : List ManiphestQuery :=
  if !cfg.user_phids.isEmpty || !cfg.project_phids.isEmpty then
    (if !cfg.user_phids.isEmpty then
      [.owner cfg.user_phids, .cc cfg.user_phids, .author cfg.user_phids]
     else []) ++
    (if !cfg.project_phids.isEmpty then [.project cfg.project_phids] else [])
  else [.all]

/-- The duplicate-elimination list comprehension in
`PhabricatorService.tasks`: keep an item when `str(item[1])` has not
been seen yet (record identity; the phid component is ignored). -/
def dedupGo (seen : List PhabTask) : List (String × PhabTask) → List (String × PhabTask)
  | [] => []
  | it :: rest =>
    if it.2 ∈ seen then dedupGo seen rest
    else it :: dedupGo (it.2 :: seen) rest

def dedupByRecord (l : List (String × PhabTask)) : List (String × PhabTask) :=
  dedupGo [] l

/-- The pre-filter task item list assembled by
`PhabricatorService.tasks` from the query results: the three
user-scoped queries concatenated and deduplicated when `user_phids` is
set, overwritten by the project-scoped query result when
`project_phids` is set, the unrestricted query otherwise. -/
def fetchedTasks (cfg : PhabFilterConfig) (api : ManiphestAPI) :
    List (String × PhabTask) :=
  if !cfg.user_phids.isEmpty || !cfg.project_phids.isEmpty then
    if !cfg.project_phids.isEmpty then api.byProject
    else dedupByRecord (api.byOwner ++ api.byCc ++ api.byAuthor)
  else api.all

namespace PhabricatorService

/-- `PhabricatorService.tasks`: the records it yields.  `fetch` is the
outcome of the `try` block's API calls; a `phabricator.APIError` is
caught and logged and the generator returns, so the function is total
and produces `[]` on error. -/
def tasks (cfg : PhabFilterConfig) (fetch : Except String ManiphestAPI) :
    List (String × PhabTask) :=
  match fetch with
  | .error _ => []
  | .ok api => (fetchedTasks cfg api).filter (fun it => this_task_matches cfg it.2)

/-- `PhabricatorService.revisions`: the records it yields.  `fetch` is
the outcome of `differential.query`; an APIError is caught and logged
and the generator returns. -/
def revisions (cfg : PhabFilterConfig) (fetch : Except String (List PhabDiff)) :
    List PhabDiff :=
  match fetch with
  | .error _ => []
  | .ok diffs => diffs.filter (fun d => this_diff_matches cfg d)

end PhabricatorService

/-- `PhabricatorIssue.PRIORITY_MAP` (a literal `None` value for
`Needs Triage`). -/
def PHAB_PRIORITY_MAP : List (String × Option String) :=
  [("Needs Triage", none),
   ("Unbreak Now!", some "H"),
   ("High", some "H"),
   ("Normal", some "M"),
   ("Low", some "L"),
   ("Wishlist", some "L")]

/-- `PhabricatorIssue.priority`:
`self.PRIORITY_MAP.get(self.record.get('priority')) or self.config.default_priority`.
`dict.get` on a missing (or `None`) key yields `None`, and `x or d`
falls through on `None`. -/
def phabPriority (record_priority : Option String) (default_priority : String) :
    String :=
  pyOrStr
    (match record_priority with
     | none => none
     | some k => ((PHAB_PRIORITY_MAP.lookup k).getD none))
    default_priority

/-! ## Redmine connector (`bugwarrior/services/redmine.py`) -/

/-- A Python float as it is observed by the Redmine hours logic: the
only operations applied to it are truthiness / comparison with `0.0`
(captured by `isZero`) and `str()` (captured by `repr`, e.g. `"0.0"`
for the float `0.0`). -/
structure PyFloat where
  repr : String
  isZero : Bool
deriving DecidableEq

/-- The float `0.0` (`str(0.0) == "0.0"`). -/
def pyFloatZero : PyFloat := ⟨"0.0", true⟩

/-- A nested Redmine object reduced to its `name` field. -/
structure NamedRef where
  name : String
deriving DecidableEq

/-- A Redmine issue record, with the keys read by
`RedMineIssue.to_taskwarrior` aside from the four date fields (those
are parsed by external library code and appear in no claim). -/
structure RedmineRecord where
  id : Int
  subject : String
  description : Option String
  tracker : NamedRef
  status : NamedRef
  author : NamedRef
  project : NamedRef
  priority : Option NamedRef
  category : Option NamedRef
  assigned_to : Option NamedRef
  estimated_hours : Option PyFloat
  spent_hours : Option PyFloat
deriving DecidableEq

/-- `RedMineIssue.PRIORITY_MAP`. -/
def REDMINE_PRIORITY_MAP : List (String × String) :=
  [("Low", "L"),
   ("Normal", "M"),
   ("High", "H"),
   ("Urgent", "H"),
   ("Immediate", "H")]

/-- The normalized record produced by `RedMineIssue.to_taskwarrior`
(date fields omitted, see `RedmineRecord`). -/
structure RedmineTW where
  project : String
  annotations : List String
  priority : String
  redmineurl : String
  redminesubject : String
  redmineid : Int
  redminedescription : String
  redminetracker : String
  redminestatus : String
  redmineauthor : String
  redmineprojectname : String
  redmineassignedto : Option String
  redminecategory : Option String
  redmineestimatedhours : Option String
  redminespenthours : Option String
deriving DecidableEq

namespace RedMineIssue

/-- `RedMineIssue.get_priority`:
`PRIORITY_MAP.get(self.record.get('priority', {}).get('name'), default)`. -/
def get_priority (r : RedmineRecord) (default_priority : String) : String :=
  match r.priority.map (fun p => p.name) with
  | none => default_priority
  | some k => (REDMINE_PRIORITY_MAP.lookup k).getD default_priority

/-- `RedMineIssue.get_project_name`: the configured `project_name` if
non-empty (Python truthiness), else
`re.sub(r'[^a-zA-Z0-9]', '', self.record["project"]["name"]).lower()`. -/
def get_project_name (config_project_name : String) (r : RedmineRecord) : String :=
  if config_project_name ≠ "" then config_project_name
  else ⟨(r.project.name.data.filter Char.isAlphanum).map Char.toLower⟩

/-- `RedMineIssue.get_issue_url`. -/
def get_issue_url (config_url : String) (r : RedmineRecord) : String :=
  config_url ++ "/issues/" ++ toString r.id

/-- The hours handling in `RedMineIssue.to_taskwarrior`:
`if hours or hours == 0.0: hours = get_converted_hours(str(hours) + ' hours')`.
`convert` models `RedMineIssue.get_converted_hours` (a shell-out to
the external `task calc` tool).  `None` is falsy and `None == 0.0` is
`False`, so an absent field stays `None`; any present float passes
(non-zero by truthiness, zero by the `== 0.0` comparison). -/
def hoursValue (convert : String → String) (v : Option PyFloat) : Option String :=
  if (match v with | some f => !f.isZero | none => false) ||
     (match v with | some f => f.isZero | none => false) then
    match v with
    | some f => some (convert (f.repr ++ " hours"))
    | none => none
  else none

/-- `RedMineIssue.to_taskwarrior` (date fields omitted).  `ann` is
`self.extra.get('annotations', [])`. -/
def to_taskwarrior (convert : String → String) (config_project_name : String)
    (config_url : String) (default_priority : String) (ann : List String)
    (r : RedmineRecord) : RedmineTW :=
  { project := get_project_name config_project_name r
    annotations := ann
    priority := get_priority r default_priority
    redmineurl := get_issue_url config_url r
    redminesubject := r.subject
    redmineid := r.id
    redminedescription := r.description.getD ""
    redminetracker := r.tracker.name
    redminestatus := r.status.name
    redmineauthor := r.author.name
    redmineprojectname := r.project.name
    redmineassignedto := r.assigned_to.map (fun a => a.name)
    redminecategory := r.category.map (fun c => c.name)
    redmineestimatedhours := hoursValue convert r.estimated_hours
    redminespenthours := hoursValue convert r.spent_hours }

end RedMineIssue

/-! ## Spec-side refinement definitions -/

/-- Removal of one leading literal word, when present. -/
def stripLiteral (lit s : String) : String :=
  if lit.data.isPrefixOf s.data then ⟨s.data.drop lit.data.length⟩ else s

/-- A message-text transformation that follows the words of the spec
sentence "strip a leading `\"Patch Set \"` literal and a leading
`\"\x7brevision_number\x7d:\"` literal from the message text, collapse
newlines to spaces, trim whitespace" — for comparison against
`messageText`, which embeds the code's `str.lstrip` calls. -/
def literalMessageText (rev : Int) (msg : String) : String :=
  pyReplaceNewlines (pyStripWs
    (stripLiteral (toString rev ++ ":") (stripLiteral "Patch Set " msg)))

/-- Recognizes a project-scoped Maniphest query. -/
def isProjectQuery : ManiphestQuery → Bool
  | .project _ => true
  | _ => false

/-! ## Helper lemmas -/

theorem hasCommon_iff (a b : List String) :
    hasCommon a b = true ↔ ∃ x, x ∈ a ∧ x ∈ b := by
  simp [hasCommon, List.any_eq_true]

theorem dedupGo_mem_of_mem (seen : List PhabTask)
    (l : List (String × PhabTask)) :
    ∀ it ∈ dedupGo seen l, it ∈ l := by
  induction l generalizing seen with
  | nil => simp [dedupGo]
  | cons hd tl ih =>
    intro it hit
    by_cases h : hd.2 ∈ seen
    · simp only [dedupGo, if_pos h] at hit
      exact List.mem_cons_of_mem hd (ih seen it hit)
    · simp only [dedupGo, if_neg h, List.mem_cons] at hit
      rcases hit with rfl | hit
      · exact List.mem_cons_self it tl
      · exact List.mem_cons_of_mem hd (ih (hd.2 :: seen) it hit)

theorem dedupGo_not_seen (seen : List PhabTask)
    (l : List (String × PhabTask)) :
    ∀ it ∈ dedupGo seen l, it.2 ∉ seen := by
  induction l generalizing seen with
  | nil => simp [dedupGo]
  | cons hd tl ih =>
    intro it hit
    by_cases h : hd.2 ∈ seen
    · simp only [dedupGo, if_pos h] at hit
      exact ih seen it hit
    · simp only [dedupGo, if_neg h, List.mem_cons] at hit
      rcases hit with rfl | hit
      · exact h
      · exact fun hs => ih (hd.2 :: seen) it hit (List.mem_cons_of_mem _ hs)

theorem dedupGo_pairwise (seen : List PhabTask)
    (l : List (String × PhabTask)) :
    (dedupGo seen l).Pairwise (fun a b => a.2 ≠ b.2) := by
  induction l generalizing seen with
  | nil => simp [dedupGo]
  | cons hd tl ih =>
    by_cases h : hd.2 ∈ seen
    · simpa only [dedupGo, if_pos h] using ih seen
    · simp only [dedupGo, if_neg h]
      refine List.Pairwise.cons (fun it hit => ?_) (ih (hd.2 :: seen))
      have := dedupGo_not_seen (hd.2 :: seen) tl it hit
      intro heq
      exact this (heq ▸ List.mem_cons_self hd.2 seen)

theorem dedupGo_covers (seen : List PhabTask)
    (l : List (String × PhabTask)) :
    ∀ it ∈ l, it.2 ∈ seen ∨ ∃ it2 ∈ dedupGo seen l, it2.2 = it.2 := by
  induction l generalizing seen with
  | nil => simp
  | cons hd tl ih =>
    intro it hit
    rcases List.mem_cons.mp hit with rfl | hit
    · by_cases h : it.2 ∈ seen
      · exact Or.inl h
      · exact Or.inr ⟨it, by simp [dedupGo, if_neg h], rfl⟩
    · by_cases h : hd.2 ∈ seen
      · rcases ih seen it hit with hs | ⟨it2, h2, he⟩
        · exact Or.inl hs
        · exact Or.inr ⟨it2, by simpa [dedupGo, if_neg, if_pos h] using h2, he⟩
      · rcases ih (hd.2 :: seen) it hit with hs | ⟨it2, h2, he⟩
        · rcases List.mem_cons.mp hs with he | hs
          · exact Or.inr ⟨hd, by simp [dedupGo, if_neg h], he.symm⟩
          · exact Or.inl hs
        · exact Or.inr ⟨it2, by simp [dedupGo, if_neg h, h2], he⟩

theorem dropWhile_append_of_all {α : Type} (p : α → Bool) (l1 l2 : List α)
    (h : ∀ x ∈ l1, p x = true) :
    (l1 ++ l2).dropWhile p = l2.dropWhile p := by
  induction l1 with
  | nil => rfl
  | cons hd tl ih =>
    simp only [List.cons_append,
      List.dropWhile_cons_of_pos (h hd (List.mem_cons_self hd tl))]
    exact ih (fun x hx => h x (List.mem_cons_of_mem hd hx))

theorem dropWhile_of_head_neg {α : Type} (p : α → Bool) (l : List α)
    (h : ∀ c ∈ l.take 1, p c = false) :
    l.dropWhile p = l := by
  cases l with
  | nil => rfl
  | cons hd tl =>
    exact List.dropWhile_cons_of_neg
      (by simp [h hd (by simp)])

theorem contains_eq_true_of_mem {c : Char} {l : List Char} (h : c ∈ l) :
    l.contains c = true := by
  simp [h]

theorem contains_eq_false_of_not_mem {c : Char} {l : List Char} (h : c ∉ l) :
    l.contains c = false := by
  simp [h]

theorem digit_not_in_patch (c : Char) (hc : c.isDigit = true) :
    ("Patch Set ").data.contains c = false := by
  apply contains_eq_false_of_not_mem
  intro hmem
  have hdata : ("Patch Set ").data = ['P', 'a', 't', 'c', 'h', ' ', 'S', 'e', 't', ' '] := rfl
  rw [hdata] at hmem
  fin_cases hmem <;> exact absurd hc (by decide)

/-! ## Claim theorems -/

/-- Claim C1: a Phabricator task or revision is emitted iff either no
filter list is configured, or its relevance set (roles not explicitly
ignored) meets `user_phids`, or its project/repository set meets
`project_phids`; and a record that matched only through its cc list no
longer matches once `ignore_cc` is true. -/
theorem phab_membership_filter (cfg : PhabFilterConfig) (t : PhabTask)
    (d : PhabDiff) :
    (this_task_matches cfg t = true ↔
      (cfg.user_phids = [] ∧ cfg.project_phids = []) ∨
      (∃ x, x ∈ task_relevant_to cfg t ∧ x ∈ cfg.user_phids) ∨
      (∃ x, x ∈ t.projectPHIDs ∧ x ∈ cfg.project_phids)) ∧
    (this_diff_matches cfg d = true ↔
      (cfg.user_phids = [] ∧ cfg.project_phids = []) ∨
      (∃ x, x ∈ diff_relevant_to cfg d ∧ x ∈ cfg.user_phids) ∨
      (∃ x, x ∈ diff_project_set d ∧ x ∈ cfg.project_phids)) ∧
    (cfg.user_phids ≠ [] →
      hasCommon (task_relevant_to {cfg with ignore_cc := true} t)
        cfg.user_phids = false →
      hasCommon t.projectPHIDs cfg.project_phids = false →
      this_task_matches {cfg with ignore_cc := true} t = false) ∧
    (cfg.user_phids ≠ [] →
      hasCommon (diff_relevant_to {cfg with ignore_cc := true} d)
        cfg.user_phids = false →
      hasCommon (diff_project_set d) cfg.project_phids = false →
      this_diff_matches {cfg with ignore_cc := true} d = false) := by
  refine ⟨?_, ?_, fun h1 h2 h3 => ?_, fun h1 h2 h3 => ?_⟩
  · by_cases hu : cfg.user_phids = [] <;> by_cases hp : cfg.project_phids = [] <;>
      simp [this_task_matches, hasCommon_iff, List.isEmpty_iff, hu, hp]
  · by_cases hu : cfg.user_phids = [] <;> by_cases hp : cfg.project_phids = [] <;>
      simp [this_diff_matches, hasCommon_iff, List.isEmpty_iff, hu, hp]
  · simp [this_task_matches, List.isEmpty_iff, h1, h2, h3]
  · simp [this_diff_matches, List.isEmpty_iff, h1, h2, h3]

/-- Witness for C1: the spec's Phabricator scenario plus the cc-only
case — a task whose only relevant role is its cc entry `"U1"` matches
with `ignore_cc := false` and stops matching with `ignore_cc := true`. -/
theorem phab_membership_filter_witness :
    this_task_matches ⟨["U1"], [], false, true, true, false⟩
      ⟨"u", "T", none, ["U1"], "O1", "A1", []⟩ = true ∧
    this_task_matches ⟨["U1"], [], true, true, true, false⟩
      ⟨"u", "T", none, ["U1"], "O1", "A1", []⟩ = false :=
  ⟨(phab_membership_filter ⟨["U1"], [], false, true, true, false⟩
      ⟨"u", "T", none, ["U1"], "O1", "A1", []⟩
      ⟨"u", "T", [], [], "A", "R", none⟩).1.mpr
      (Or.inr (Or.inl ⟨"U1", by decide⟩)),
   (phab_membership_filter ⟨["U1"], [], false, true, true, false⟩
      ⟨"u", "T", none, ["U1"], "O1", "A1", []⟩
      ⟨"u", "T", [], [], "A", "R", none⟩).2.2.1
      (by decide) (by decide) (by decide)⟩

/-- Claim C3: with `user_phids` set and `project_phids` unset,
`PhabricatorService.tasks` issues the three user-scoped queries and
deduplicates their concatenation by record identity; whenever
`project_phids` is set, exactly one project-scoped query is issued and
its result replaces (is not unioned with) the user-derived list, so
the emitted tasks are drawn from it alone. -/
theorem phab_query_plan (cfg : PhabFilterConfig) (api : ManiphestAPI)
    (l : List (String × PhabTask)) :
    (cfg.user_phids ≠ [] → cfg.project_phids = [] →
      issuedQueries cfg =
        [.owner cfg.user_phids, .cc cfg.user_phids, .author cfg.user_phids] ∧
      fetchedTasks cfg api
        = dedupByRecord (api.byOwner ++ api.byCc ++ api.byAuthor)) ∧
    (cfg.project_phids ≠ [] →
      (issuedQueries cfg).filter isProjectQuery = [.project cfg.project_phids] ∧
      fetchedTasks cfg api = api.byProject ∧
      PhabricatorService.tasks cfg (Except.ok api)
        = api.byProject.filter (fun it => this_task_matches cfg it.2)) ∧
    ((dedupByRecord l).Pairwise (fun a b => a.2 ≠ b.2) ∧
     (∀ it ∈ l, ∃ it2 ∈ dedupByRecord l, it2.2 = it.2) ∧
     (∀ it ∈ dedupByRecord l, it ∈ l)) := by
  refine ⟨fun h1 h2 => ?_, fun hp => ?_, ?_⟩
  · constructor <;>
      simp [issuedQueries, fetchedTasks, List.isEmpty_iff, h1, h2]
  · by_cases hu : cfg.user_phids = [] <;>
      refine ⟨?_, ?_, ?_⟩ <;>
      simp [issuedQueries, fetchedTasks, isProjectQuery,
        PhabricatorService.tasks, List.isEmpty_iff, hu, hp]
  · exact ⟨dedupGo_pairwise [] l,
      fun it hit =>
        (dedupGo_covers [] l it hit).resolve_left (List.not_mem_nil _),
      dedupGo_mem_of_mem [] l⟩

/-- Witness for C3: with one duplicated record across the owner and cc
query results, the assembled list keeps a single copy; with
`project_phids` set, the project query result replaces it. -/
theorem phab_query_plan_witness :
    fetchedTasks ⟨["U1"], [], false, false, false, false⟩
      ⟨[("p1", ⟨"u1", "T1", none, [], "O", "A", []⟩)],
       [("p2", ⟨"u1", "T1", none, [], "O", "A", []⟩)],
       [("p3", ⟨"u2", "T2", none, [], "O", "A", []⟩)], [], []⟩
      = [("p1", ⟨"u1", "T1", none, [], "O", "A", []⟩),
         ("p3", ⟨"u2", "T2", none, [], "O", "A", []⟩)] ∧
    fetchedTasks ⟨["U1"], ["PR"], false, false, false, false⟩
      ⟨[("p1", ⟨"u1", "T1", none, [], "O", "A", []⟩)],
       [("p2", ⟨"u1", "T1", none, [], "O", "A", []⟩)],
       [("p3", ⟨"u2", "T2", none, [], "O", "A", []⟩)],
       [("p9", ⟨"u9", "T9", none, [], "O", "A", ["PR"]⟩)], []⟩
      = [("p9", ⟨"u9", "T9", none, [], "O", "A", ["PR"]⟩)] :=
  ⟨(((phab_query_plan ⟨["U1"], [], false, false, false, false⟩
      ⟨[("p1", ⟨"u1", "T1", none, [], "O", "A", []⟩)],
       [("p2", ⟨"u1", "T1", none, [], "O", "A", []⟩)],
       [("p3", ⟨"u2", "T2", none, [], "O", "A", []⟩)], [], []⟩ []).1
      (by decide) rfl).2).trans (by decide),
   ((phab_query_plan ⟨["U1"], ["PR"], false, false, false, false⟩
      ⟨[("p1", ⟨"u1", "T1", none, [], "O", "A", []⟩)],
       [("p2", ⟨"u1", "T1", none, [], "O", "A", []⟩)],
       [("p3", ⟨"u2", "T2", none, [], "O", "A", []⟩)],
       [("p9", ⟨"u9", "T9", none, [], "O", "A", ["PR"]⟩)], []⟩ []).2.1
      (by decide)).2.1⟩

/-- Claim C10: for every Gerrit change record, the normalized record's
`priority` equals the configured default priority and its `tags` is
the empty list — the connector never derives them from the remote
change. -/
theorem gerrit_constant_priority_tags (default_priority url : String)
    (ann : List String) (r : GerritChange) :
    (GerritIssue.to_taskwarrior default_priority url ann r).priority
        = default_priority ∧
    (GerritIssue.to_taskwarrior default_priority url ann r).tags = [] :=
  ⟨rfl, rfl⟩

/-- Claim C9: `GerritIssue.to_taskwarrior` defaults missing optional
fields deterministically: absent `topic` yields `"notopic"`, absent
`status` yields `""`, and the work-in-progress flag is coerced to the
number 0 or 1 (`work_in_progress: true` yields 1). -/
theorem gerrit_optional_defaults (default_priority url : String)
    (ann : List String) (r : GerritChange) :
    (r.topic = none →
      (GerritIssue.to_taskwarrior default_priority url ann r).gerrittopic
        = "notopic") ∧
    (r.status = none →
      (GerritIssue.to_taskwarrior default_priority url ann r).gerritstatus
        = "") ∧
    ((GerritIssue.to_taskwarrior default_priority url ann r).gerritwip = 0 ∨
     (GerritIssue.to_taskwarrior default_priority url ann r).gerritwip = 1) ∧
    (r.work_in_progress = some true →
      (GerritIssue.to_taskwarrior default_priority url ann r).gerritwip = 1) := by
  refine ⟨fun h => ?_, fun h => ?_, ?_, fun h => ?_⟩
  · simp [GerritIssue.to_taskwarrior, h]
  · simp [GerritIssue.to_taskwarrior, h]
  · rcases hw : r.work_in_progress with - | b
    · exact Or.inl (by simp [GerritIssue.to_taskwarrior, hw])
    · cases b
      · exact Or.inl (by simp [GerritIssue.to_taskwarrior, hw])
      · exact Or.inr (by simp [GerritIssue.to_taskwarrior, hw])
  · simp [GerritIssue.to_taskwarrior, h]

/-- Witness for C9: the spec's end-to-end Gerrit scenario, a change
with number 7, subject "S", branch "main", `work_in_progress: true`
and no topic/status keys. -/
theorem gerrit_optional_defaults_witness :
    (GerritIssue.to_taskwarrior "M" "u" []
      ⟨"p", 7, "S", "main", none, none, some true, []⟩).gerrittopic
        = "notopic" ∧
    (GerritIssue.to_taskwarrior "M" "u" []
      ⟨"p", 7, "S", "main", none, none, some true, []⟩).gerritstatus = "" ∧
    (GerritIssue.to_taskwarrior "M" "u" []
      ⟨"p", 7, "S", "main", none, none, some true, []⟩).gerritwip = 1 :=
  ⟨(gerrit_optional_defaults "M" "u" [] _).1 rfl,
   (gerrit_optional_defaults "M" "u" [] _).2.1 rfl,
   (gerrit_optional_defaults "M" "u" [] _).2.2.2 rfl⟩

/-- Claim C7: for every Gerrit change message, the annotation author
is resolved in strict fallback order over the author object
(`name`, else `username`, else `email`, else the numeric account id);
an author carrying only an account id resolves to that id. -/
theorem gerrit_author_fallback (msgs : List GerritMessage)
    (m : GerritMessage) (hm : m ∈ msgs) :
    (resolveAuthorName m.author, messageText m.revision_number m.message)
        ∈ annotationEntries msgs ∧
    (∀ v, m.author.name = some v → resolveAuthorName m.author = .str v) ∧
    (∀ v, m.author.name = none → m.author.username = some v →
      resolveAuthorName m.author = .str v) ∧
    (∀ v, m.author.name = none → m.author.username = none →
      m.author.email = some v → resolveAuthorName m.author = .str v) ∧
    (m.author.name = none → m.author.username = none → m.author.email = none →
      resolveAuthorName m.author = .int m.author.account_id) := by
  refine ⟨List.mem_map.mpr ⟨m, hm, rfl⟩, ?_, ?_, ?_, ?_⟩
  · intro v h
    simp [resolveAuthorName, h]
  · intro v h1 h2
    simp [resolveAuthorName, h1, h2]
  · intro v h1 h2 h3
    simp [resolveAuthorName, h1, h2, h3]
  · intro h1 h2 h3
    simp [resolveAuthorName, h1, h2, h3]

/-- Witness for C7: an author object containing only `_account_id: 99`
resolves to the integer 99. -/
theorem gerrit_author_fallback_witness :
    resolveAuthorName ⟨none, none, none, 99⟩ = .int 99 :=
  (gerrit_author_fallback [⟨⟨none, none, none, 99⟩, 1, "ok"⟩]
    ⟨⟨none, none, none, 99⟩, 1, "ok"⟩ (by simp)).2.2.2.2 rfl rfl rfl

/-- Claim C6: a Redmine record whose `estimated_hours` (or
`spent_hours`) is exactly the float `0.0` yields the converted
duration of `"0.0 hours"`, not an absent value; an absent field
yields `None`.  More generally any present float is converted. -/
theorem redmine_zero_hours (convert : String → String)
    (config_project_name config_url default_priority : String)
    (ann : List String) (r : RedmineRecord) (f : PyFloat) :
    RedMineIssue.hoursValue convert (some f)
        = some (convert (f.repr ++ " hours")) ∧
    RedMineIssue.hoursValue convert none = none ∧
    (r.estimated_hours = some pyFloatZero →
      (RedMineIssue.to_taskwarrior convert config_project_name config_url
        default_priority ann r).redmineestimatedhours
        = some (convert "0.0 hours")) ∧
    (r.spent_hours = some pyFloatZero →
      (RedMineIssue.to_taskwarrior convert config_project_name config_url
        default_priority ann r).redminespenthours
        = some (convert "0.0 hours")) ∧
    (r.estimated_hours = none →
      (RedMineIssue.to_taskwarrior convert config_project_name config_url
        default_priority ann r).redmineestimatedhours = none) ∧
    (r.spent_hours = none →
      (RedMineIssue.to_taskwarrior convert config_project_name config_url
        default_priority ann r).redminespenthours = none) := by
  refine ⟨?_, rfl, fun h => ?_, fun h => ?_, fun h => ?_, fun h => ?_⟩
  · cases hf : f.isZero <;> simp [RedMineIssue.hoursValue, hf]
  · simp [RedMineIssue.to_taskwarrior, RedMineIssue.hoursValue, h, pyFloatZero]
  · simp [RedMineIssue.to_taskwarrior, RedMineIssue.hoursValue, h, pyFloatZero]
  · simp [RedMineIssue.to_taskwarrior, RedMineIssue.hoursValue, h]
  · simp [RedMineIssue.to_taskwarrior, RedMineIssue.hoursValue, h]

/-- Witness for C6: a record with `estimated_hours = 0.0` and no
`spent_hours`, converted with the identity conversion. -/
theorem redmine_zero_hours_witness :
    (RedMineIssue.to_taskwarrior (fun s => s) "" "http://r" "M" []
      ⟨42, "Fix", none, ⟨"Bug"⟩, ⟨"Open"⟩, ⟨"Al"⟩, ⟨"My Proj!"⟩,
        some ⟨"High"⟩, none, none, some pyFloatZero, none⟩).redmineestimatedhours
      = some "0.0 hours" ∧
    (RedMineIssue.to_taskwarrior (fun s => s) "" "http://r" "M" []
      ⟨42, "Fix", none, ⟨"Bug"⟩, ⟨"Open"⟩, ⟨"Al"⟩, ⟨"My Proj!"⟩,
        some ⟨"High"⟩, none, none, some pyFloatZero, none⟩).redminespenthours
      = none :=
  ⟨(redmine_zero_hours (fun s => s) "" "http://r" "M" [] _ pyFloatZero).2.2.1 rfl,
   (redmine_zero_hours (fun s => s) "" "http://r" "M" [] _ pyFloatZero).2.2.2.2.2 rfl⟩

/-- Claim C5: the Phabricator and Redmine priority maps are total with
the stated buckets; `Needs Triage`, any unlisted name, and an absent
priority all fall back to the configured default. -/
theorem priority_maps_total (d : String) (r : RedmineRecord) (s t : String)
    (hs : s ∉ ["Needs Triage", "Unbreak Now!", "High", "Normal", "Low", "Wishlist"])
    (ht : t ∉ ["Low", "Normal", "High", "Urgent", "Immediate"]) :
    phabPriority (some "Unbreak Now!") d = "H" ∧
    phabPriority (some "High") d = "H" ∧
    phabPriority (some "Normal") d = "M" ∧
    phabPriority (some "Low") d = "L" ∧
    phabPriority (some "Wishlist") d = "L" ∧
    phabPriority (some "Needs Triage") d = d ∧
    phabPriority none d = d ∧
    phabPriority (some s) d = d ∧
    RedMineIssue.get_priority {r with priority := some ⟨"Low"⟩} d = "L" ∧
    RedMineIssue.get_priority {r with priority := some ⟨"Normal"⟩} d = "M" ∧
    RedMineIssue.get_priority {r with priority := some ⟨"High"⟩} d = "H" ∧
    RedMineIssue.get_priority {r with priority := some ⟨"Urgent"⟩} d = "H" ∧
    RedMineIssue.get_priority {r with priority := some ⟨"Immediate"⟩} d = "H" ∧
    RedMineIssue.get_priority {r with priority := none} d = d ∧
    RedMineIssue.get_priority {r with priority := some ⟨t⟩} d = d := by
  simp only [List.mem_cons, List.not_mem_nil, or_false, not_or] at hs ht
  refine ⟨rfl, rfl, rfl, rfl, rfl, rfl, rfl, ?_, rfl, rfl, rfl, rfl, rfl, rfl, ?_⟩
  · simp [phabPriority, PHAB_PRIORITY_MAP, pyOrStr, List.lookup,
      beq_eq_false_iff_ne.mpr hs.1, beq_eq_false_iff_ne.mpr hs.2.1,
      beq_eq_false_iff_ne.mpr hs.2.2.1, beq_eq_false_iff_ne.mpr hs.2.2.2.1,
      beq_eq_false_iff_ne.mpr hs.2.2.2.2.1, beq_eq_false_iff_ne.mpr hs.2.2.2.2.2]
  · simp [RedMineIssue.get_priority, REDMINE_PRIORITY_MAP, List.lookup,
      beq_eq_false_iff_ne.mpr ht.1, beq_eq_false_iff_ne.mpr ht.2.1,
      beq_eq_false_iff_ne.mpr ht.2.2.1, beq_eq_false_iff_ne.mpr ht.2.2.2.1,
      beq_eq_false_iff_ne.mpr ht.2.2.2.2]

/-- Witness for C5: an unlisted name falls back to the default while a
listed one maps to its bucket. -/
theorem priority_maps_total_witness :
    phabPriority (some "Unbreak Now!") "Z" = "H" ∧
    phabPriority (some "Other") "Z" = "Z" ∧
    RedMineIssue.get_priority
      ⟨42, "Fix", none, ⟨"Bug"⟩, ⟨"Open"⟩, ⟨"Al"⟩, ⟨"P"⟩, some ⟨"Misc"⟩,
        none, none, none, none⟩ "Z" = "Z" :=
  ⟨(priority_maps_total "Z"
      ⟨42, "Fix", none, ⟨"Bug"⟩, ⟨"Open"⟩, ⟨"Al"⟩, ⟨"P"⟩, some ⟨"Misc"⟩,
        none, none, none, none⟩ "Other" "Misc"
      (by decide) (by decide)).1,
   (priority_maps_total "Z"
      ⟨42, "Fix", none, ⟨"Bug"⟩, ⟨"Open"⟩, ⟨"Al"⟩, ⟨"P"⟩, some ⟨"Misc"⟩,
        none, none, none, none⟩ "Other" "Misc"
      (by decide) (by decide)).2.2.2.2.2.2.2.1,
   (priority_maps_total "Z"
      ⟨42, "Fix", none, ⟨"Bug"⟩, ⟨"Open"⟩, ⟨"Al"⟩, ⟨"P"⟩, some ⟨"Misc"⟩,
        none, none, none, none⟩ "Other" "Misc"
      (by decide) (by decide)).2.2.2.2.2.2.2.2.2.2.2.2.2.2⟩

/-- Claim C8: with no configured project-name override, the normalized
Redmine `project` is the remote project name with all non-alphanumeric
characters removed and the result lower-cased; `redmineid` is the raw
id and `priority` comes from the priority map. -/
theorem redmine_project_normalization (convert : String → String)
    (config_url default_priority : String) (ann : List String)
    (r : RedmineRecord) (config_project_name : String)
    (h : config_project_name = "") :
    (RedMineIssue.to_taskwarrior convert config_project_name config_url
      default_priority ann r).project
      = ⟨(r.project.name.data.filter Char.isAlphanum).map Char.toLower⟩ ∧
    (RedMineIssue.to_taskwarrior convert config_project_name config_url
      default_priority ann r).redmineid = r.id ∧
    (RedMineIssue.to_taskwarrior convert config_project_name config_url
      default_priority ann r).priority
      = RedMineIssue.get_priority r default_priority := by
  subst h
  refine ⟨?_, rfl, rfl⟩
  simp [RedMineIssue.to_taskwarrior, RedMineIssue.get_project_name]

/-- Witness for C8: the spec's end-to-end Redmine scenario — project
name "My Proj!" normalizes to "myproj", priority "High" to "H", id 42
preserved. -/
theorem redmine_project_normalization_witness :
    (RedMineIssue.to_taskwarrior (fun s => s) "" "http://r" "M" []
      ⟨42, "Fix", none, ⟨"Bug"⟩, ⟨"Open"⟩, ⟨"Al"⟩, ⟨"My Proj!"⟩,
        some ⟨"High"⟩, none, none, none, none⟩).project = "myproj" ∧
    (RedMineIssue.to_taskwarrior (fun s => s) "" "http://r" "M" []
      ⟨42, "Fix", none, ⟨"Bug"⟩, ⟨"Open"⟩, ⟨"Al"⟩, ⟨"My Proj!"⟩,
        some ⟨"High"⟩, none, none, none, none⟩).redmineid = 42 ∧
    (RedMineIssue.to_taskwarrior (fun s => s) "" "http://r" "M" []
      ⟨42, "Fix", none, ⟨"Bug"⟩, ⟨"Open"⟩, ⟨"Al"⟩, ⟨"My Proj!"⟩,
        some ⟨"High"⟩, none, none, none, none⟩).priority = "H" :=
  ⟨((redmine_project_normalization (fun s => s) "http://r" "M" [] _ "" rfl).1).trans
      (by decide),
   ((redmine_project_normalization (fun s => s) "http://r" "M" [] _ "" rfl).2.1).trans
      (by decide),
   ((redmine_project_normalization (fun s => s) "http://r" "M" [] _ "" rfl).2.2).trans
      (by decide)⟩

/-- Counterexample to C4 as stated: a Gerrit response with the non-2xx
status 304 does not raise — `requests`' `raise_for_status` only raises
for 4xx/5xx — so "a Gerrit non-2xx HTTP response raises immediately"
fails; the run completes and returns its (empty) change list. -/
theorem gerrit_non2xx_no_raise :
    ¬ (200 ≤ 304 ∧ 304 < 300) ∧
    GerritService.issues (fun _ => Except.ok []) ⟨304, "XXXX"⟩ = Except.ok [] :=
  ⟨by decide, rfl⟩

/-- Claim C4 (amended): remote-API failures are asymmetric — a
Phabricator API error in `tasks()`/`revisions()` is caught, yielding
no records and no error, while a Gerrit response with a 4xx or 5xx
status raises immediately, aborting the run with no records (non-2xx
statuses below 400 do not raise). -/
theorem service_error_asymmetry (cfg : PhabFilterConfig) (e : String)
    (parse : String → Except String (List GerritChange)) (resp : HttpResponse) :
    PhabricatorService.tasks cfg (Except.error e) = [] ∧
    PhabricatorService.revisions cfg (Except.error e) = [] ∧
    (400 ≤ resp.status_code → resp.status_code < 600 →
      GerritService.issues parse resp = Except.error "HTTPError") := by
  refine ⟨rfl, rfl, fun h1 h2 => ?_⟩
  have hc : raise_for_status resp = Except.error "HTTPError" := by
    unfold raise_for_status
    split
    · rfl
    · omega
  simp [GerritService.issues, hc, Bind.bind, Except.bind]

/-- Witness for C4: a Phabricator API error yields no tasks while a
Gerrit 404 response raises. -/
theorem service_error_asymmetry_witness :
    PhabricatorService.tasks ⟨[], [], false, false, false, false⟩
      (Except.error "ERR-CONDUIT-CORE") = [] ∧
    GerritService.issues (fun _ => Except.ok []) ⟨404, "XXXX"⟩
      = Except.error "HTTPError" :=
  ⟨(service_error_asymmetry ⟨[], [], false, false, false, false⟩
      "ERR-CONDUIT-CORE" (fun _ => Except.ok []) ⟨404, "XXXX"⟩).1,
   (service_error_asymmetry ⟨[], [], false, false, false, false⟩
      "ERR-CONDUIT-CORE" (fun _ => Except.ok []) ⟨404, "XXXX"⟩).2.2
      (by decide) (by decide)⟩

/-- Counterexample to C2 as stated: the code uses `str.lstrip`, which
strips a character SET, not a literal.  The message "attach the log"
does not begin with "Patch Set " or "1:", yet its leading characters
(all drawn from the characters of "Patch Set ") are removed, giving
"log" instead of the unchanged text the claim requires (the
spec-faithful `literalMessageText` keeps it intact). -/
theorem gerrit_message_literal_counterexample :
    messageText 1 "attach the log" = "log" ∧
    literalMessageText 1 "attach the log" = "attach the log" ∧
    messageText 1 "attach the log" ≠ literalMessageText 1 "attach the log" :=
  ⟨by decide, by decide, by decide⟩

/-- Claim C2 (amended): the annotation text removes the longest
leading run of characters drawn from the character set of
"Patch Set ", then the longest leading run drawn from the characters
of "\x7brevision_number\x7d:", then trims whitespace and replaces
newlines with spaces.  A well-formed "Patch Set \x7brev\x7d:" prefix
is removed whole, and a message whose first character lies outside
both character sets keeps all its leading characters. -/
theorem gerrit_message_charset_strip (rev : Int) (rest msg : String)
    (hd : ∀ c ∈ (toString rev).data, c.isDigit = true)
    (hne : (toString rev).data ≠ [])
    (hrest : ∀ c ∈ rest.data.take 1,
      c ∉ ("Patch Set ").data ∧ c ∉ (toString rev ++ ":").data)
    (hmsg : ∀ c ∈ msg.data.take 1,
      c ∉ ("Patch Set ").data ∧ c ∉ (toString rev ++ ":").data) :
    messageText rev ("Patch Set " ++ toString rev ++ ":" ++ rest)
      = pyReplaceNewlines (pyStripWs rest) ∧
    messageText rev msg = pyReplaceNewlines (pyStripWs msg) := by
  obtain ⟨c0, cs, hcs⟩ := List.exists_cons_of_ne_nil hne
  have hc0digit : c0.isDigit = true :=
    hd c0 (by rw [hcs]; exact List.mem_cons_self _ _)
  have hMdata : ("Patch Set " ++ toString rev ++ ":" ++ rest).data
      = ("Patch Set ").data ++ ((toString rev).data ++ (':' :: rest.data)) := by
    simp only [String.data_append, List.append_assoc]
    rfl
  have step1 : ("Patch Set " ++ toString rev ++ ":" ++ rest).data.dropWhile
      (fun c => ("Patch Set ").data.contains c)
      = (toString rev).data ++ (':' :: rest.data) := by
    rw [hMdata, dropWhile_append_of_all _ _ _ (by decide)]
    apply dropWhile_of_head_neg
    intro c hcmem
    rw [hcs, List.cons_append] at hcmem
    simp only [List.take_succ_cons, List.take_zero, List.mem_singleton] at hcmem
    subst hcmem
    exact digit_not_in_patch c hc0digit
  have step2 : ((toString rev).data ++ (':' :: rest.data)).dropWhile
      (fun c => (toString rev ++ ":").data.contains c) = rest.data := by
    rw [dropWhile_append_of_all _ _ _ (fun x hx =>
      contains_eq_true_of_mem (by
        rw [String.data_append]; exact List.mem_append_left _ hx))]
    rw [List.dropWhile_cons_of_pos (contains_eq_true_of_mem (by
      rw [String.data_append]; exact List.mem_append_right _ (by decide)))]
    exact dropWhile_of_head_neg _ _
      (fun c hc => contains_eq_false_of_not_mem (hrest c hc).2)
  have e1 : pyLstrip (toString rev ++ ":")
      (pyLstrip "Patch Set " ("Patch Set " ++ toString rev ++ ":" ++ rest))
      = rest := by
    show String.mk ((("Patch Set " ++ toString rev ++ ":" ++ rest).data.dropWhile
        fun c => ("Patch Set ").data.contains c).dropWhile
        fun c => (toString rev ++ ":").data.contains c) = rest
    rw [step1, step2]
  have hmsg1 : msg.data.dropWhile (fun c => ("Patch Set ").data.contains c)
      = msg.data :=
    dropWhile_of_head_neg _ _
      (fun c hc => contains_eq_false_of_not_mem (hmsg c hc).1)
  have hmsg2 : msg.data.dropWhile (fun c => (toString rev ++ ":").data.contains c)
      = msg.data :=
    dropWhile_of_head_neg _ _
      (fun c hc => contains_eq_false_of_not_mem (hmsg c hc).2)
  have e2 : pyLstrip (toString rev ++ ":") (pyLstrip "Patch Set " msg) = msg := by
    show String.mk ((msg.data.dropWhile
        fun c => ("Patch Set ").data.contains c).dropWhile
        fun c => (toString rev ++ ":").data.contains c) = msg
    rw [hmsg1, hmsg2]
  constructor
  · unfold messageText
    rw [e1]
  · unfold messageText
    rw [e2]

/-- Witness for C2 (amended): the intended case — a message carrying a
well-formed "Patch Set 7:" marker loses exactly that marker. -/
theorem gerrit_message_charset_strip_witness :
    messageText 7 ("Patch Set " ++ toString (7 : Int) ++ ":" ++ "Looks good")
      = pyReplaceNewlines (pyStripWs "Looks good") ∧
    messageText 7 "Patch Set 7:Looks good" = "Looks good" :=
  ⟨(gerrit_message_charset_strip 7 "Looks good" "Looks good"
      (by decide) (by decide) (by decide) (by decide)).1,
   by
    have h := (gerrit_message_charset_strip 7 "Looks good" "Looks good"
      (by decide) (by decide) (by decide) (by decide)).1
    rw [show ("Patch Set " ++ toString (7 : Int) ++ ":" ++ "Looks good" : String)
        = "Patch Set 7:Looks good" from by decide] at h
    rw [h]
    decide⟩

end Bugwarrior
